import Mathlib

/-!
Verification of the `@sudobility/mixr_types` package (`src/index.ts`).

The embedding covers the parts of the package with behavioral content:

* `MixrApiResponse<T>` — the generic response envelope: a `success` boolean
  together with independently optional `data`, `error` and `count` fields.
  The TypeScript optional fields `data?: T`, `error?: string` and
  `count?: number` are modelled as `Option` values, where `none` stands for
  the absent / `undefined` state.
* `isSuccessResponse` — the type guard
  `return res.success === true && res.data !== undefined;`.
* `EQUIPMENT_SUBCATEGORIES` / `INGREDIENT_SUBCATEGORIES` — the constant
  arrays mirroring the string-literal union types `EquipmentSubcategory`
  and `IngredientSubcategory`.
* `AddFavoriteResponse`, `RemoveFavoriteResponse`, `HealthResponse`,
  `VersionResponse` — the ad hoc response shapes that do not use the
  generic envelope.

For the purity claim an additional state-passing embedding
(`isSuccessResponseRun`) evaluates the guard body against an explicit heap
of JavaScript objects, so that the absence of mutation is a theorem about
the returned heap rather than an artifact of a pure modelling choice.
-/

/-- A JavaScript runtime value, the universe from which envelope payloads
are drawn. `undefined` is not a constructor: absence is represented by
`Option.none` at the use sites (optional fields, missing object keys). -/
inductive JsValue where
  | null : JsValue
  | bool : Bool → JsValue
  | num : Int → JsValue
  | str : String → JsValue
  | arr : List JsValue → JsValue
  | obj : List (String × JsValue) → JsValue

/-- The generic response envelope of `src/index.ts`:
`{ success: boolean; data?: T; error?: string; count?: number }`. -/
structure MixrApiResponse (T : Type) where
  success : Bool
  data : Option T
  error : Option String
  count : Option Int

/-- The type guard of `src/index.ts`:
`return res.success === true && res.data !== undefined;`.
`res.success === true` over the declared `boolean` type is Boolean
equality with `true`; `res.data !== undefined` is `Option.isSome` under
the `none`-is-`undefined` convention. -/
def isSuccessResponse {T : Type} (res : MixrApiResponse T) : Bool :=
  (res.success == true) && res.data.isSome

/-- The string-literal union `EquipmentSubcategory` of `src/index.ts`. -/
def EquipmentSubcategory (s : String) : Prop :=
  s = "essential" ∨ s = "glassware" ∨ s = "garnish" ∨ s = "advanced"

/-- The string-literal union `IngredientSubcategory` of `src/index.ts`. -/
def IngredientSubcategory (s : String) : Prop :=
  s = "spirit" ∨ s = "wine" ∨ s = "other_alcohol" ∨ s = "fruit" ∨
    s = "spice" ∨ s = "other"

/-- The constant array `EQUIPMENT_SUBCATEGORIES` of `src/index.ts`. -/
def EQUIPMENT_SUBCATEGORIES : List String :=
  ["essential", "glassware", "garnish", "advanced"]

/-- The constant array `INGREDIENT_SUBCATEGORIES` of `src/index.ts`. -/
def INGREDIENT_SUBCATEGORIES : List String :=
  ["spirit", "wine", "other_alcohol", "fruit", "spice", "other"]

/-- The ad hoc shape `AddFavoriteResponse` of `src/index.ts`:
`{ success: boolean; message: string }`. -/
structure AddFavoriteResponse where
  success : Bool
  message : String

/-- The ad hoc shape `RemoveFavoriteResponse` of `src/index.ts`:
`{ success: boolean; message: string }`. -/
structure RemoveFavoriteResponse where
  success : Bool
  message : String

/-- The ad hoc shape `HealthResponse` of `src/index.ts`:
`{ success: boolean; status: string; timestamp: string }`. -/
structure HealthResponse where
  success : Bool
  status : String
  timestamp : String

/-- The ad hoc shape `VersionResponse` of `src/index.ts`:
`{ success: boolean; message: string; version: string }`. -/
structure VersionResponse where
  success : Bool
  message : String
  version : String

/-- A JavaScript object as a field table. -/
def JsObject : Type := List (String × JsValue)

/-- Property read on a JS object; `none` models reading an absent key,
i.e. obtaining `undefined`. -/
def JsObject.getField : JsObject → String → Option JsValue
  | [], _ => none
  | (k, v) :: rest, key => if k = key then some v else JsObject.getField rest key

/-- A heap of JavaScript objects, addressed by reference. -/
structure JsHeap where
  objs : List JsObject

/-- Read the field `key` of the object the reference `ref` points to. -/
def JsHeap.readField (h : JsHeap) (ref : Nat) (key : String) : Option JsValue :=
  match h.objs.get? ref with
  | some o => o.getField key
  | none => none

/-- `=== true` on an arbitrary JS value: strict equality holds exactly for
the Boolean literal `true`. -/
def isLiteralTrue : Option JsValue → Bool
  | some (JsValue.bool true) => true
  | _ => false

/-- State-passing embedding of the body of `isSuccessResponse` over an
explicit heap: the body `return res.success === true && res.data !== undefined;`
performs two property reads, a strict comparison with `true`, a
definedness test, and a conjunction, and issues no write — the function
returns the heap it was given so that the absence of mutation can be
stated and proved. -/
def isSuccessResponseRun (h : JsHeap) (res : Nat) : Bool × JsHeap :=
  let s := h.readField res "success"
  let d := h.readField res "data"
  (isLiteralTrue s && d.isSome, h)

/-- C1: for every envelope `e`, `isSuccessResponse e` returns `true` iff
`e.success` is strictly equal to the literal `true` and `e.data` is
present (not the missing/`undefined` sentinel). -/
theorem isSuccessResponse_iff {T : Type} (e : MixrApiResponse T) :
    isSuccessResponse e = true ↔ (e.success = true ∧ e.data ≠ none) := by
  simp [isSuccessResponse, Option.isSome_iff_ne_none]

/-- C2: for every envelope `e` with `e.success === false`,
`isSuccessResponse e` returns `false`, regardless of whether `e.data` is
present. -/
theorem isSuccessResponse_false_of_failure {T : Type} (e : MixrApiResponse T)
    (h : e.success = false) : isSuccessResponse e = false := by
  simp [isSuccessResponse, h]

/-- Witness for C2: the spec scenario
`{success: false, data: 42, error: "partial failure"}` yields `false`
even though a payload is incidentally present. -/
theorem isSuccessResponse_false_of_failure_witness :
    isSuccessResponse
      (⟨false, some (JsValue.num 42), some "partial failure", none⟩ :
        MixrApiResponse JsValue) = false :=
  isSuccessResponse_false_of_failure _ rfl

/-- C3: for every envelope `e` with `e.success === true` and `e.data`
absent (missing key / `undefined`), `isSuccessResponse e` returns
`false`. -/
theorem isSuccessResponse_false_of_no_data {T : Type} (e : MixrApiResponse T)
    (hs : e.success = true) (hd : e.data = none) :
    isSuccessResponse e = false := by
  simp [isSuccessResponse, hd]

/-- Witness for C3: the spec scenario `{success: true}` (no `data` key)
yields `false`. -/
theorem isSuccessResponse_false_of_no_data_witness :
    isSuccessResponse
      (⟨true, none, none, none⟩ : MixrApiResponse JsValue) = false :=
  isSuccessResponse_false_of_no_data _ rfl rfl

/-- C4: for every envelope `e` with `e.success === true` and `e.data`
present with any value `v` — including falsy-but-defined payloads such as
`0`, the empty string, `false`, or an empty collection —
`isSuccessResponse e` returns `true`: a present-but-empty payload counts
as present. -/
theorem isSuccessResponse_true_of_present {T : Type} (e : MixrApiResponse T)
    (v : T) (hs : e.success = true) (hd : e.data = some v) :
    isSuccessResponse e = true := by
  simp [isSuccessResponse, hs, hd]

/-- Witness for C4: the spec scenario `{success: true, data: 0}` yields
`true` — zero is a present value, not absence. -/
theorem isSuccessResponse_true_of_present_witness :
    isSuccessResponse
      (⟨true, some (JsValue.num 0), none, none⟩ :
        MixrApiResponse JsValue) = true :=
  isSuccessResponse_true_of_present _ (JsValue.num 0) rfl rfl

/-- C5: for every envelope `e` with `e.success === true` and `e.data` an
explicit `null` (present key, `null` value), `isSuccessResponse e`
returns `true`: only the absent/`undefined` sentinel triggers failure. -/
theorem isSuccessResponse_true_of_null_data (e : MixrApiResponse JsValue)
    (hs : e.success = true) (hd : e.data = some JsValue.null) :
    isSuccessResponse e = true := by
  simp [isSuccessResponse, hs, hd]

/-- Witness for C5: `{success: true, data: null}` yields `true`. -/
theorem isSuccessResponse_true_of_null_data_witness :
    isSuccessResponse
      (⟨true, some JsValue.null, none, none⟩ :
        MixrApiResponse JsValue) = true :=
  isSuccessResponse_true_of_null_data _ rfl rfl

/-- C6: whenever `isSuccessResponse` returns `true` on an envelope, the
`data` field of that same envelope is definitely present, so the caller
can read the payload without a further presence check. -/
theorem isSuccessResponse_data_present {T : Type} (e : MixrApiResponse T)
    (h : isSuccessResponse e = true) : ∃ v, e.data = some v := by
  rcases e with ⟨s, d, er, c⟩
  cases d with
  | none => simp [isSuccessResponse] at h
  | some v => exact ⟨v, rfl⟩

/-- Witness for C6: applied to `{success: true, data: "ok"}`, the guard
returns `true` and the payload is indeed present. -/
theorem isSuccessResponse_data_present_witness :
    ∃ v, (⟨true, some (JsValue.str "ok"), none, none⟩ :
      MixrApiResponse JsValue).data = some v :=
  isSuccessResponse_data_present _ rfl

/-- C7: `isSuccessResponse` is deterministic and side-effect-free: in the
state-passing embedding of its body, every invocation returns the heap it
was given unchanged, and invoking it again in the state left behind by a
first invocation on the same reference yields the same Boolean. -/
theorem isSuccessResponseRun_pure (h : JsHeap) (res : Nat) :
    (isSuccessResponseRun h res).2 = h ∧
    (isSuccessResponseRun (isSuccessResponseRun h res).2 res).1 =
      (isSuccessResponseRun h res).1 :=
  ⟨rfl, rfl⟩

/-- C8: the favorite-add/remove, health-check and version response shapes
do not use the generic envelope: each consists exactly of its declared
fields — `success` and `message` for `AddFavoriteResponse` and
`RemoveFavoriteResponse`; `success`, `status` and `timestamp` for
`HealthResponse`; `success`, `message` and `version` for
`VersionResponse` — as witnessed by the listed projections forming a
bijection onto the corresponding product, leaving no room for the
envelope fields `data`, `error` or `count`. -/
theorem adhoc_response_shapes :
    Function.Bijective
      (fun r : AddFavoriteResponse => (r.success, r.message)) ∧
    Function.Bijective
      (fun r : RemoveFavoriteResponse => (r.success, r.message)) ∧
    Function.Bijective
      (fun r : HealthResponse => (r.success, r.status, r.timestamp)) ∧
    Function.Bijective
      (fun r : VersionResponse => (r.success, r.message, r.version)) := by
  refine ⟨⟨?_, ?_⟩, ⟨?_, ?_⟩, ⟨?_, ?_⟩, ⟨?_, ?_⟩⟩
  · intro a b hab
    cases a
    cases b
    simpa using hab
  · intro p
    exact ⟨⟨p.1, p.2⟩, rfl⟩
  · intro a b hab
    cases a
    cases b
    simpa using hab
  · intro p
    exact ⟨⟨p.1, p.2⟩, rfl⟩
  · intro a b hab
    cases a
    cases b
    simpa using hab
  · intro p
    exact ⟨⟨p.1, p.2.1, p.2.2⟩, rfl⟩
  · intro a b hab
    cases a
    cases b
    simpa using hab
  · intro p
    exact ⟨⟨p.1, p.2.1, p.2.2⟩, rfl⟩

/-- C9: `EQUIPMENT_SUBCATEGORIES` is exactly
`["essential", "glassware", "garnish", "advanced"]` and
`INGREDIENT_SUBCATEGORIES` is exactly
`["spirit", "wine", "other_alcohol", "fruit", "spice", "other"]`; each
array has no duplicates and lists precisely the members of its
corresponding string-literal union, with no extra values. -/
theorem subcategory_constants_exact :
    EQUIPMENT_SUBCATEGORIES = ["essential", "glassware", "garnish", "advanced"] ∧
    INGREDIENT_SUBCATEGORIES =
      ["spirit", "wine", "other_alcohol", "fruit", "spice", "other"] ∧
    EQUIPMENT_SUBCATEGORIES.Nodup ∧
    INGREDIENT_SUBCATEGORIES.Nodup ∧
    (∀ s, EquipmentSubcategory s ↔ s ∈ EQUIPMENT_SUBCATEGORIES) ∧
    (∀ s, IngredientSubcategory s ↔ s ∈ INGREDIENT_SUBCATEGORIES) := by
  refine ⟨rfl, rfl, by decide, by decide, ?_, ?_⟩
  · intro s
    simp [EquipmentSubcategory, EQUIPMENT_SUBCATEGORIES]
  · intro s
    simp [IngredientSubcategory, INGREDIENT_SUBCATEGORIES]

/-- C10: the result of `isSuccessResponse` depends only on the `success`
and `data` fields: two envelopes agreeing on those fields receive the
same Boolean, however their `error` and `count` fields differ. -/
theorem isSuccessResponse_ignores_error_count {T : Type}
    (a b : MixrApiResponse T) (hs : a.success = b.success)
    (hd : a.data = b.data) : isSuccessResponse a = isSuccessResponse b := by
  simp [isSuccessResponse, hs, hd]

/-- Witness for C10: two envelopes sharing `success` and `data` but with
different `error` and `count` fields receive the same verdict. -/
theorem isSuccessResponse_ignores_error_count_witness :
    isSuccessResponse
      (⟨true, some (JsValue.num 1), none, none⟩ : MixrApiResponse JsValue) =
    isSuccessResponse
      (⟨true, some (JsValue.num 1), some "boom", some 7⟩ :
        MixrApiResponse JsValue) :=
  isSuccessResponse_ignores_error_count _ _ rfl rfl
